import Mathlib

/-!
Shallow embedding of kraken's `utils/dockerutil` package (manifest format
resolution) and the `utils/closers` helper, together with theorems checking
the natural-language specification against this code.

The payloads handled by the Go code are raw JSON bytes.  We embed a payload
abstractly by the features the parsers inspect: its declared `mediaType`
string, its `schemaVersion` integer, the structural shape its JSON body is
well-formed under (image-manifest grammar with config+layers, or
index/manifest-list grammar with a manifests array, or neither), the ordered
reference descriptors it carries, and the sha256 hex of its exact bytes
(which the unmarshaler computes with `digest.FromBytes`).
-/

namespace Kraken

/-- Media type constant `_v2ManifestType` from dockerutil.go. -/
def v2ManifestType : String := "application/vnd.docker.distribution.manifest.v2+json"

/-- Media type constant `_v2ManifestListType` from dockerutil.go. -/
def v2ManifestListType : String := "application/vnd.docker.distribution.manifest.list.v2+json"

/-- Media type constant `_ociManifestType` from dockerutil.go. -/
def ociManifestType : String := "application/vnd.oci.image.manifest.v1+json"

/-- Media type constant `_ociIndexType` from dockerutil.go. -/
def ociIndexType : String := "application/vnd.oci.image.index.v1+json"

/-- The structural grammar a JSON payload body is well-formed under:
`imageManifest` is the config+layers shape shared by Docker v2 manifests and
OCI manifests, `manifestIndex` is the manifests-array shape shared by Docker
v2 manifest lists and OCI indexes, `other` is anything else. -/
inductive Shape where
  | imageManifest
  | manifestIndex
  | other
deriving DecidableEq, Repr

/-- A reference descriptor `{mediaType, size, digest}` as it appears in a
manifest body (distribution.Descriptor). -/
structure Descriptor where
  mediaType : String
  size : Int
  digest : String
deriving DecidableEq, Repr

/-- Abstract view of a raw byte payload, by the features the parsers
inspect.  `contentHex` stands for the sha256 hex of the exact bytes; for a
real byte string it is always 64 lowercase hex characters. -/
structure Payload where
  mediaType : String
  schemaVersion : Int
  shape : Shape
  refs : List Descriptor
  contentHex : String
  contentLen : Int
deriving DecidableEq, Repr

/-- The four manifest variants the resolver discriminates between. -/
inductive MVariant where
  | v2Manifest
  | ociManifest
  | v2ManifestList
  | ociIndex
deriving DecidableEq, Repr, Fintype

/-- A deserialized manifest (the `distribution.Manifest` the parsers return),
tagged with the variant whose unmarshal function produced it and carrying
the payload fields the callers read back. -/
structure Manifest where
  variant : MVariant
  mediaType : String
  schemaVersion : Int
  refs : List Descriptor
deriving DecidableEq, Repr

/-- `core.Digest`: algorithm-qualified content hash. -/
structure Digest where
  algo : String
  hex : String
deriving DecidableEq, Repr

/-- The Go zero value `core.Digest{}` returned on every error path. -/
def Digest.zero : Digest := ⟨"", ""⟩

/-- Lowercase hex character test. -/
def isHexChar (c : Char) : Bool := "0123456789abcdef".toList.contains c

/-- Modelled from the spec: `core.ParseSHA256Digest` lives in kraken's
`core` package, which is not under src/.  Spec section 3: a Digest's hex
length and charset must match the algorithm — 64 lowercase hex characters
for sha256 — and a malformed digest string is a `DigestFormatError`. -/
def ParseSHA256Digest (s : String) : Except String Digest :=
  let cs := s.toList
  if cs.take 7 = "sha256:".toList then
    let hex := cs.drop 7
    if hex.length = 64 ∧ hex.all isHexChar then
      .ok ⟨"sha256", String.mk hex⟩
    else .error ("invalid sha256 digest: " ++ s)
  else .error ("invalid sha256 digest: " ++ s)

/-- The media type string each variant's unmarshal function is registered
under. -/
def mediaTypeOf : MVariant → String
  | .v2Manifest => v2ManifestType
  | .ociManifest => ociManifestType
  | .v2ManifestList => v2ManifestListType
  | .ociIndex => ociIndexType

/-- The body grammar each variant's unmarshal function requires. -/
def shapeOf : MVariant → Shape
  | .v2Manifest => .imageManifest
  | .ociManifest => .imageManifest
  | .v2ManifestList => .manifestIndex
  | .ociIndex => .manifestIndex

/-- Which variant a media type string selects, if any. -/
def variantOfMediaType (mt : String) : Option MVariant :=
  if mt = v2ManifestType then some .v2Manifest
  else if mt = ociManifestType then some .ociManifest
  else if mt = v2ManifestListType then some .v2ManifestList
  else if mt = ociIndexType then some .ociIndex
  else none

/-- Modelled from the spec: `distribution.UnmarshalManifest` (the
docker/distribution library, not under src/) dispatches on the requested
media type to that variant's registered unmarshal function.  Per the spec's
section 3 invariant, a successful deserialization requires the payload to be
well-formed under that variant's grammar and its declared media type to
match the variant — mismatch is a parse failure, not a silent coercion.  The
unmarshal functions perform no schemaVersion validation (the callers in
dockerutil.go check the version themselves afterwards).  The returned
descriptor's digest is `digest.FromBytes` of the exact bytes accepted. -/
def UnmarshalManifest (mt : String) (p : Payload) : Except String (Manifest × Descriptor) :=
  match variantOfMediaType mt with
  | none => .error ("unsupported manifest media type: " ++ mt)
  | some v =>
    if p.shape = shapeOf v ∧ p.mediaType = mediaTypeOf v then
      .ok (⟨v, p.mediaType, p.schemaVersion, p.refs⟩,
           ⟨mt, p.contentLen, "sha256:" ++ p.contentHex⟩)
    else .error ("payload does not match media type " ++ mt)

/-- The Go triple `(distribution.Manifest, core.Digest, error)`: the
manifest interface value is nil-able, the digest is a struct with a zero
value, the error is nil or a message. -/
structure ParseResult where
  manifest : Option Manifest
  digest : Digest
  err : Option String
deriving DecidableEq, Repr

/-- `ParseManifestV2` from dockerutil.go: unmarshal under the Docker v2
manifest media type, reject `schemaVersion != 2`, parse the descriptor's
digest.  (The `schema2.DeserializedManifest` type assertion always holds,
since that is the type the registered unmarshal function returns.) -/
def ParseManifestV2 (p : Payload) : ParseResult :=
  match UnmarshalManifest v2ManifestType p with
  | .error e => ⟨none, Digest.zero, some ("unmarshal manifest: " ++ e)⟩
  | .ok (m, desc) =>
    if m.schemaVersion ≠ 2 then
      ⟨none, Digest.zero, some ("unsupported manifest version: " ++ toString m.schemaVersion)⟩
    else
      match ParseSHA256Digest desc.digest with
      | .error e => ⟨none, Digest.zero, some ("parse digest: " ++ e)⟩
      | .ok d => ⟨some m, d, none⟩

/-- `ParseManifestV2List` from dockerutil.go. -/
def ParseManifestV2List (p : Payload) : ParseResult :=
  match UnmarshalManifest v2ManifestListType p with
  | .error e => ⟨none, Digest.zero, some ("unmarshal manifestlist: " ++ e)⟩
  | .ok (m, desc) =>
    if m.schemaVersion ≠ 2 then
      ⟨none, Digest.zero, some ("unsupported manifest list version: " ++ toString m.schemaVersion)⟩
    else
      match ParseSHA256Digest desc.digest with
      | .error e => ⟨none, Digest.zero, some ("parse digest: " ++ e)⟩
      | .ok d => ⟨some m, d, none⟩

/-- `ParseOCIManifest` from dockerutil.go. -/
def ParseOCIManifest (p : Payload) : ParseResult :=
  match UnmarshalManifest ociManifestType p with
  | .error e => ⟨none, Digest.zero, some ("unmarshal oci manifest: " ++ e)⟩
  | .ok (m, desc) =>
    if m.schemaVersion ≠ 2 then
      ⟨none, Digest.zero, some ("unsupported oci manifest version: " ++ toString m.schemaVersion)⟩
    else
      match ParseSHA256Digest desc.digest with
      | .error e => ⟨none, Digest.zero, some ("parse digest: " ++ e)⟩
      | .ok d => ⟨some m, d, none⟩

/-- `ParseOCIIndex` from dockerutil.go: unmarshal under the OCI index media
type (reusing the manifest-list structure) and parse the descriptor's
digest.  Unlike the other three parsers, the source performs no
`schemaVersion` check here. -/
def ParseOCIIndex (p : Payload) : ParseResult :=
  match UnmarshalManifest ociIndexType p with
  | .error e => ⟨none, Digest.zero, some ("unmarshal oci index: " ++ e)⟩
  | .ok (m, desc) =>
    match ParseSHA256Digest desc.digest with
    | .error e => ⟨none, Digest.zero, some ("parse digest: " ++ e)⟩
    | .ok d => ⟨some m, d, none⟩

/-- `ParseManifest` from dockerutil.go, after the `io.ReadAll` step (the
reader is embedded as the payload it yields): try Docker v2 manifest, then
OCI manifest, then Docker v2 manifest list, then return whatever the OCI
index attempt returns. -/
def ParseManifest (p : Payload) : ParseResult :=
  if (ParseManifestV2 p).err = none then ParseManifestV2 p
  else if (ParseOCIManifest p).err = none then ParseOCIManifest p
  else if (ParseManifestV2List p).err = none then ParseManifestV2List p
  else ParseOCIIndex p

/-- Helper for `GetManifestReferences`: parse each reference descriptor's
digest in order, failing at the first malformed one. -/
def parseRefDigests : List Descriptor → Except String (List Digest)
  | [] => .ok []
  | desc :: rest =>
    match ParseSHA256Digest desc.digest with
    | .error e => .error ("parse digest: " ++ e)
    | .ok d =>
      match parseRefDigests rest with
      | .error e => .error e
      | .ok l => .ok (d :: l)

/-- `GetManifestReferences` from dockerutil.go: iterate the manifest's
reference descriptors in order, parsing each digest; any malformed digest
aborts with an error. -/
def GetManifestReferences (m : Manifest) : Except String (List Digest) :=
  parseRefDigests m.refs

/-- `GetSupportedManifestTypes` from dockerutil.go:
`fmt.Sprintf` of the four media type constants, comma separated. -/
def GetSupportedManifestTypes : String :=
  v2ManifestType ++ "," ++ v2ManifestListType ++ "," ++ ociManifestType ++ "," ++ ociIndexType

/-! Concrete payloads, mirroring the fixtures in dockerutil_test.go. -/

/-- 64-character sha256 hex taken from the repository's test fixtures. -/
def sampleHex : String := "1a9ec845ee94c202b2d5da74a24f0ed2058318bfa9879fa541efaecba272e86b"

/-- A second 64-character hex from the fixtures. -/
def sampleHex2 : String := "62d8908bee94c202b2d35224a221aaa2058318bfa9879fa541efaecba272331b"

/-- The `testManifestBytes` fixture: a well-formed Docker v2 manifest. -/
def v2ManifestPayload : Payload :=
  ⟨v2ManifestType, 2, .imageManifest,
   [⟨"application/vnd.docker.container.image.v1+json", 985, "sha256:" ++ sampleHex⟩,
    ⟨"application/vnd.docker.image.rootfs.diff.tar.gzip", 153263, "sha256:" ++ sampleHex2⟩],
   sampleHex2, 540⟩

/-- The `testOciManifestBytes` fixture: a well-formed OCI manifest. -/
def ociManifestPayload : Payload :=
  ⟨ociManifestType, 2, .imageManifest,
   [⟨"application/vnd.oci.image.config.v1+json", 985, "sha256:" ++ sampleHex⟩,
    ⟨"application/vnd.oci.image.layer.v1.tar+gzip", 153263, "sha256:" ++ sampleHex2⟩],
   sampleHex, 533⟩

/-- The `testManifestListBytes` fixture: a well-formed Docker v2 manifest
list. -/
def v2ListPayload : Payload :=
  ⟨v2ManifestListType, 2, .manifestIndex,
   [⟨v2ManifestType, 985, "sha256:" ++ sampleHex⟩,
    ⟨v2ManifestType, 2392, "sha256:6346340964309634683409684360934680934608934608934608934068934608"⟩],
   sampleHex, 742⟩

/-- The `testOciIndexBytes` fixture: a well-formed OCI index. -/
def ociIndexPayload : Payload :=
  ⟨ociIndexType, 2, .manifestIndex,
   [⟨ociManifestType, 985, "sha256:" ++ sampleHex⟩,
    ⟨ociManifestType, 2392, "sha256:6346340964309634683409684360934680934608934608934608934068934608"⟩],
   sampleHex2, 701⟩

/-- A well-formed OCI index whose `schemaVersion` is 3, not 2. -/
def ociIndexV3Payload : Payload :=
  ⟨ociIndexType, 3, .manifestIndex,
   [⟨ociManifestType, 985, "sha256:" ++ sampleHex⟩],
   sampleHex, 388⟩

/-- A Docker v2 manifest payload whose `schemaVersion` is 3, not 2. -/
def v2ManifestV3Payload : Payload :=
  ⟨v2ManifestType, 3, .imageManifest,
   [⟨"application/vnd.docker.container.image.v1+json", 985, "sha256:" ++ sampleHex⟩],
   sampleHex, 391⟩

/-- Bytes well-formed under none of the four grammars. -/
def garbagePayload : Payload :=
  ⟨"text/plain", 0, .other, [], sampleHex, 12⟩

/-- Try each attempt in order, returning the first whose error is nil,
and the last attempt's result when every earlier one failed.  This is the
spec's words for the resolver algorithm ("attempt deserialization against
each of the four known schemas in a fixed priority order ... stopping at
the first success"), used to compare against `ParseManifest`. -/
def tryAttemptsInOrder : List (Payload → ParseResult) → (Payload → ParseResult) → Payload → ParseResult
  | [], last, p => last p
  | f :: fs, last, p =>
    let r := f p
    if r.err = none then r else tryAttemptsInOrder fs last p

/-- The parser each variant tag selects. -/
def parserOf : MVariant → Payload → ParseResult
  | .v2Manifest => ParseManifestV2
  | .ociManifest => ParseOCIManifest
  | .v2ManifestList => ParseManifestV2List
  | .ociIndex => ParseOCIIndex

/-! The `utils/closers` helper. -/

/-- Severity of a log message emitted by the closers helper. -/
inductive LogLevel where
  | debug
  | error
deriving DecidableEq, Repr

/-- A log message emitted by the closers helper. -/
structure LogEntry where
  level : LogLevel
  msg : String
deriving DecidableEq, Repr

/-- What a closer's `Close()` call does when invoked: succeed, or fail with
an error whose `Error()` string is `msg`. -/
inductive CloseOutcome where
  | ok
  | failed (msg : String)
deriving DecidableEq, Repr

/-- The observable behavior of one call to the closers helper: the log
messages it emits, and the error it propagates to its caller (the Go
function has no return value, so this component records that nothing can
be propagated). -/
structure CloseEffect where
  logs : List LogEntry
  propagated : Option String
deriving DecidableEq, Repr

namespace closers

/-- `closers.Close` from closers.go: a nil closer is skipped; otherwise the
closer is closed, a failure whose message is exactly "file already closed"
or "close: file already closed" is logged at Debug level, any other failure
is logged at Error level, and the function returns nothing. -/
def Close (closer : Option CloseOutcome) : CloseEffect :=
  match closer with
  | none => ⟨[], none⟩
  | some .ok => ⟨[], none⟩
  | some (.failed m) =>
    if m = "file already closed" ∨ m = "close: file already closed" then
      ⟨[⟨.debug, "attempted to close already closed file (this is usually harmless)"⟩], none⟩
    else
      ⟨[⟨.error, "failed to close a closer"⟩], none⟩

end closers

/-- A parsed manifest with well-formed reference digests. -/
def refsOkManifest : Manifest := ⟨.v2Manifest, v2ManifestType, 2, v2ManifestPayload.refs⟩

/-- A manifest of a different variant carrying the same references. -/
def refsOkManifestOci : Manifest := ⟨.ociManifest, ociManifestType, 2, v2ManifestPayload.refs⟩

/-- A manifest with a malformed reference digest. -/
def refsBadManifest : Manifest :=
  ⟨.ociIndex, ociIndexType, 2, [⟨ociManifestType, 7, "not-a-digest"⟩]⟩

/-! Helper lemmas shared by the claim theorems. -/

theorem variantOfMediaType_mediaTypeOf (v : MVariant) :
    variantOfMediaType (mediaTypeOf v) = some v := by
  cases v <;> decide

theorem UnmarshalManifest_ok (mt : String) (p : Payload) (m : Manifest) (desc : Descriptor)
    (h : UnmarshalManifest mt p = .ok (m, desc)) :
    variantOfMediaType mt = some m.variant ∧
    m.mediaType = p.mediaType ∧
    m.schemaVersion = p.schemaVersion ∧
    m.refs = p.refs ∧
    p.shape = shapeOf m.variant ∧
    p.mediaType = mediaTypeOf m.variant ∧
    desc.digest = "sha256:" ++ p.contentHex := by
  unfold UnmarshalManifest at h
  cases hv : variantOfMediaType mt with
  | none => rw [hv] at h; exact absurd h (by simp)
  | some v =>
    rw [hv] at h
    dsimp only at h
    by_cases hc : p.shape = shapeOf v ∧ p.mediaType = mediaTypeOf v
    · rw [if_pos hc] at h
      simp only [Except.ok.injEq, Prod.mk.injEq] at h
      obtain ⟨hm, hd⟩ := h
      subst hm
      subst hd
      exact ⟨rfl, rfl, rfl, rfl, hc.1, hc.2, rfl⟩
    · rw [if_neg hc] at h
      exact absurd h (by simp)

theorem UnmarshalManifest_ok_of (v : MVariant) (p : Payload)
    (hs : p.shape = shapeOf v) (hm : p.mediaType = mediaTypeOf v) :
    UnmarshalManifest (mediaTypeOf v) p =
      .ok (⟨v, p.mediaType, p.schemaVersion, p.refs⟩,
           ⟨mediaTypeOf v, p.contentLen, "sha256:" ++ p.contentHex⟩) := by
  unfold UnmarshalManifest
  rw [variantOfMediaType_mediaTypeOf v]
  dsimp only
  rw [if_pos ⟨hs, hm⟩]

theorem UnmarshalManifest_err_of_mediaType (v : MVariant) (p : Payload)
    (h : p.mediaType ≠ mediaTypeOf v) :
    UnmarshalManifest (mediaTypeOf v) p =
      .error ("payload does not match media type " ++ mediaTypeOf v) := by
  unfold UnmarshalManifest
  rw [variantOfMediaType_mediaTypeOf v]
  dsimp only
  rw [if_neg (fun hc => h hc.2)]

theorem ParseSHA256Digest_ok_algo (s : String) (d : Digest)
    (h : ParseSHA256Digest s = .ok d) : d.algo = "sha256" := by
  unfold ParseSHA256Digest at h
  by_cases h1 : s.toList.take 7 = "sha256:".toList
  · rw [if_pos h1] at h
    by_cases h2 : (s.toList.drop 7).length = 64 ∧ (s.toList.drop 7).all isHexChar
    · rw [if_pos h2] at h
      simp only [Except.ok.injEq] at h
      rw [← h]
    · rw [if_neg h2] at h
      exact absurd h (by simp)
  · rw [if_neg h1] at h
    exact absurd h (by simp)

/-- Anatomy of `ParseManifestV2`: either it fails with a nil manifest and a
zero digest, or it succeeds with the deserialized v2 manifest, a sha256
digest, a payload declaring exactly the v2 manifest media type and shape,
and schema version 2. -/
theorem ParseManifestV2_anatomy (p : Payload) :
    (∃ e, ParseManifestV2 p = ⟨none, Digest.zero, some e⟩) ∨
    (∃ m d, ParseManifestV2 p = ⟨some m, d, none⟩ ∧
       d.algo = "sha256" ∧ m.variant = MVariant.v2Manifest ∧ m.mediaType = p.mediaType ∧
       m.schemaVersion = p.schemaVersion ∧ m.refs = p.refs ∧
       p.mediaType = v2ManifestType ∧ p.shape = Shape.imageManifest ∧
       p.schemaVersion = 2) := by
  unfold ParseManifestV2
  cases hu : UnmarshalManifest v2ManifestType p with
  | error e => exact Or.inl ⟨_, rfl⟩
  | ok md =>
    obtain ⟨m, desc⟩ := md
    have hok := UnmarshalManifest_ok _ _ _ _ hu
    have hvar : m.variant = MVariant.v2Manifest := by
      have h1 : variantOfMediaType v2ManifestType = some MVariant.v2Manifest := by decide
      exact Option.some.inj (hok.1.symm.trans h1)
    dsimp only
    by_cases hv : m.schemaVersion ≠ 2
    · rw [if_pos hv]; exact Or.inl ⟨_, rfl⟩
    · rw [if_neg hv]
      push_neg at hv
      cases hd : ParseSHA256Digest desc.digest with
      | error e => exact Or.inl ⟨_, rfl⟩
      | ok d =>
        refine Or.inr ⟨m, d, rfl, ParseSHA256Digest_ok_algo _ _ hd, hvar, hok.2.1,
          hok.2.2.1, hok.2.2.2.1, ?_, ?_, hok.2.2.1 ▸ hv⟩
        · rw [hok.2.2.2.2.2.1, hvar]; rfl
        · rw [hok.2.2.2.2.1, hvar]; rfl

/-- Anatomy of `ParseOCIManifest`, as for `ParseManifestV2`. -/
theorem ParseOCIManifest_anatomy (p : Payload) :
    (∃ e, ParseOCIManifest p = ⟨none, Digest.zero, some e⟩) ∨
    (∃ m d, ParseOCIManifest p = ⟨some m, d, none⟩ ∧
       d.algo = "sha256" ∧ m.variant = MVariant.ociManifest ∧ m.mediaType = p.mediaType ∧
       m.schemaVersion = p.schemaVersion ∧ m.refs = p.refs ∧
       p.mediaType = ociManifestType ∧ p.shape = Shape.imageManifest ∧
       p.schemaVersion = 2) := by
  unfold ParseOCIManifest
  cases hu : UnmarshalManifest ociManifestType p with
  | error e => exact Or.inl ⟨_, rfl⟩
  | ok md =>
    obtain ⟨m, desc⟩ := md
    have hok := UnmarshalManifest_ok _ _ _ _ hu
    have hvar : m.variant = MVariant.ociManifest := by
      have h1 : variantOfMediaType ociManifestType = some MVariant.ociManifest := by decide
      exact Option.some.inj (hok.1.symm.trans h1)
    dsimp only
    by_cases hv : m.schemaVersion ≠ 2
    · rw [if_pos hv]; exact Or.inl ⟨_, rfl⟩
    · rw [if_neg hv]
      push_neg at hv
      cases hd : ParseSHA256Digest desc.digest with
      | error e => exact Or.inl ⟨_, rfl⟩
      | ok d =>
        refine Or.inr ⟨m, d, rfl, ParseSHA256Digest_ok_algo _ _ hd, hvar, hok.2.1,
          hok.2.2.1, hok.2.2.2.1, ?_, ?_, hok.2.2.1 ▸ hv⟩
        · rw [hok.2.2.2.2.2.1, hvar]; rfl
        · rw [hok.2.2.2.2.1, hvar]; rfl

/-- Anatomy of `ParseManifestV2List`, as for `ParseManifestV2`. -/
theorem ParseManifestV2List_anatomy (p : Payload) :
    (∃ e, ParseManifestV2List p = ⟨none, Digest.zero, some e⟩) ∨
    (∃ m d, ParseManifestV2List p = ⟨some m, d, none⟩ ∧
       d.algo = "sha256" ∧ m.variant = MVariant.v2ManifestList ∧ m.mediaType = p.mediaType ∧
       m.schemaVersion = p.schemaVersion ∧ m.refs = p.refs ∧
       p.mediaType = v2ManifestListType ∧ p.shape = Shape.manifestIndex ∧
       p.schemaVersion = 2) := by
  unfold ParseManifestV2List
  cases hu : UnmarshalManifest v2ManifestListType p with
  | error e => exact Or.inl ⟨_, rfl⟩
  | ok md =>
    obtain ⟨m, desc⟩ := md
    have hok := UnmarshalManifest_ok _ _ _ _ hu
    have hvar : m.variant = MVariant.v2ManifestList := by
      have h1 : variantOfMediaType v2ManifestListType = some MVariant.v2ManifestList := by decide
      exact Option.some.inj (hok.1.symm.trans h1)
    dsimp only
    by_cases hv : m.schemaVersion ≠ 2
    · rw [if_pos hv]; exact Or.inl ⟨_, rfl⟩
    · rw [if_neg hv]
      push_neg at hv
      cases hd : ParseSHA256Digest desc.digest with
      | error e => exact Or.inl ⟨_, rfl⟩
      | ok d =>
        refine Or.inr ⟨m, d, rfl, ParseSHA256Digest_ok_algo _ _ hd, hvar, hok.2.1,
          hok.2.2.1, hok.2.2.2.1, ?_, ?_, hok.2.2.1 ▸ hv⟩
        · rw [hok.2.2.2.2.2.1, hvar]; rfl
        · rw [hok.2.2.2.2.1, hvar]; rfl

/-- Anatomy of `ParseOCIIndex`: as for the other three parsers, except that
no schema-version requirement appears in the success branch — the source has
no version check here. -/
theorem ParseOCIIndex_anatomy (p : Payload) :
    (∃ e, ParseOCIIndex p = ⟨none, Digest.zero, some e⟩) ∨
    (∃ m d, ParseOCIIndex p = ⟨some m, d, none⟩ ∧
       d.algo = "sha256" ∧ m.variant = MVariant.ociIndex ∧ m.mediaType = p.mediaType ∧
       m.schemaVersion = p.schemaVersion ∧ m.refs = p.refs ∧
       p.mediaType = ociIndexType ∧ p.shape = Shape.manifestIndex) := by
  unfold ParseOCIIndex
  cases hu : UnmarshalManifest ociIndexType p with
  | error e => exact Or.inl ⟨_, rfl⟩
  | ok md =>
    obtain ⟨m, desc⟩ := md
    have hok := UnmarshalManifest_ok _ _ _ _ hu
    have hvar : m.variant = MVariant.ociIndex := by
      have h1 : variantOfMediaType ociIndexType = some MVariant.ociIndex := by decide
      exact Option.some.inj (hok.1.symm.trans h1)
    dsimp only
    cases hd : ParseSHA256Digest desc.digest with
    | error e => exact Or.inl ⟨_, rfl⟩
    | ok d =>
      refine Or.inr ⟨m, d, rfl, ParseSHA256Digest_ok_algo _ _ hd, hvar, hok.2.1,
        hok.2.2.1, hok.2.2.2.1, ?_, ?_⟩
      · rw [hok.2.2.2.2.2.1, hvar]; rfl
      · rw [hok.2.2.2.2.1, hvar]; rfl

/-- The anatomy of `parserOf v`, uniform over the variant tag. -/
theorem parserOf_anatomy (v : MVariant) (p : Payload) :
    (∃ e, parserOf v p = ⟨none, Digest.zero, some e⟩) ∨
    (∃ m d, parserOf v p = ⟨some m, d, none⟩ ∧
       d.algo = "sha256" ∧ m.variant = v ∧ m.mediaType = p.mediaType ∧
       m.schemaVersion = p.schemaVersion ∧ m.refs = p.refs ∧
       p.mediaType = mediaTypeOf v ∧ p.shape = shapeOf v ∧
       (v ≠ MVariant.ociIndex → p.schemaVersion = 2)) := by
  cases v with
  | v2Manifest =>
    rcases ParseManifestV2_anatomy p with h | ⟨m, d, h⟩
    · exact Or.inl h
    · exact Or.inr ⟨m, d, h.1, h.2.1, h.2.2.1, h.2.2.2.1, h.2.2.2.2.1, h.2.2.2.2.2.1,
        h.2.2.2.2.2.2.1, h.2.2.2.2.2.2.2.1, fun _ => h.2.2.2.2.2.2.2.2⟩
  | ociManifest =>
    rcases ParseOCIManifest_anatomy p with h | ⟨m, d, h⟩
    · exact Or.inl h
    · exact Or.inr ⟨m, d, h.1, h.2.1, h.2.2.1, h.2.2.2.1, h.2.2.2.2.1, h.2.2.2.2.2.1,
        h.2.2.2.2.2.2.1, h.2.2.2.2.2.2.2.1, fun _ => h.2.2.2.2.2.2.2.2⟩
  | v2ManifestList =>
    rcases ParseManifestV2List_anatomy p with h | ⟨m, d, h⟩
    · exact Or.inl h
    · exact Or.inr ⟨m, d, h.1, h.2.1, h.2.2.1, h.2.2.2.1, h.2.2.2.2.1, h.2.2.2.2.2.1,
        h.2.2.2.2.2.2.1, h.2.2.2.2.2.2.2.1, fun _ => h.2.2.2.2.2.2.2.2⟩
  | ociIndex =>
    rcases ParseOCIIndex_anatomy p with h | ⟨m, d, h⟩
    · exact Or.inl h
    · exact Or.inr ⟨m, d, h.1, h.2.1, h.2.2.1, h.2.2.2.1, h.2.2.2.2.1, h.2.2.2.2.2.1,
        h.2.2.2.2.2.2.1, h.2.2.2.2.2.2.2, fun hne => absurd rfl hne⟩

/-- If the Docker v2 manifest attempt succeeds, `ParseManifest` returns it. -/
theorem ParseManifest_first (p : Payload) (h : (ParseManifestV2 p).err = none) :
    ParseManifest p = ParseManifestV2 p := by
  unfold ParseManifest
  rw [if_pos h]

/-- If the Docker v2 manifest attempt fails and the OCI manifest attempt
succeeds, `ParseManifest` returns the latter. -/
theorem ParseManifest_second (p : Payload) (h1 : (ParseManifestV2 p).err ≠ none)
    (h2 : (ParseOCIManifest p).err = none) :
    ParseManifest p = ParseOCIManifest p := by
  unfold ParseManifest
  rw [if_neg h1, if_pos h2]

/-- If the first two attempts fail and the Docker v2 manifest list attempt
succeeds, `ParseManifest` returns it. -/
theorem ParseManifest_third (p : Payload) (h1 : (ParseManifestV2 p).err ≠ none)
    (h2 : (ParseOCIManifest p).err ≠ none) (h3 : (ParseManifestV2List p).err = none) :
    ParseManifest p = ParseManifestV2List p := by
  unfold ParseManifest
  rw [if_neg h1, if_neg h2, if_pos h3]

/-- If the first three attempts fail, `ParseManifest` returns whatever the
OCI index attempt returns. -/
theorem ParseManifest_fourth (p : Payload) (h1 : (ParseManifestV2 p).err ≠ none)
    (h2 : (ParseOCIManifest p).err ≠ none) (h3 : (ParseManifestV2List p).err ≠ none) :
    ParseManifest p = ParseOCIIndex p := by
  unfold ParseManifest
  rw [if_neg h1, if_neg h2, if_neg h3]

/-- `ParseManifest` always returns the result of one of the four variant
parsers. -/
theorem ParseManifest_cases (p : Payload) :
    ParseManifest p = ParseManifestV2 p ∨ ParseManifest p = ParseOCIManifest p ∨
    ParseManifest p = ParseManifestV2List p ∨ ParseManifest p = ParseOCIIndex p := by
  unfold ParseManifest
  by_cases h1 : (ParseManifestV2 p).err = none
  · rw [if_pos h1]; exact Or.inl rfl
  · rw [if_neg h1]
    by_cases h2 : (ParseOCIManifest p).err = none
    · rw [if_pos h2]; exact Or.inr (Or.inl rfl)
    · rw [if_neg h2]
      by_cases h3 : (ParseManifestV2List p).err = none
      · rw [if_pos h3]; exact Or.inr (Or.inr (Or.inl rfl))
      · rw [if_neg h3]; exact Or.inr (Or.inr (Or.inr rfl))

/-- A successful `parseRefDigests` run returns exactly the parse of each
descriptor's digest, element by element and in order. -/
theorem parseRefDigests_ok (ds : List Descriptor) (l : List Digest)
    (h : parseRefDigests ds = .ok l) :
    List.Forall₂ (fun desc dg => ParseSHA256Digest desc.digest = .ok dg) ds l := by
  induction ds generalizing l with
  | nil =>
    unfold parseRefDigests at h
    simp only [Except.ok.injEq] at h
    rw [← h]
    exact List.Forall₂.nil
  | cons desc rest ih =>
    unfold parseRefDigests at h
    cases hd : ParseSHA256Digest desc.digest with
    | error e => rw [hd] at h; exact absurd h (by simp)
    | ok d =>
      rw [hd] at h
      dsimp only at h
      cases hr : parseRefDigests rest with
      | error e => rw [hr] at h; exact absurd h (by simp)
      | ok l' =>
        rw [hr] at h
        simp only [Except.ok.injEq] at h
        rw [← h]
        exact List.Forall₂.cons hd (ih l' hr)

/-- `parseRefDigests` fails whenever some descriptor's digest is
malformed. -/
theorem parseRefDigests_error (ds : List Descriptor)
    (h : ∃ desc ∈ ds, (ParseSHA256Digest desc.digest).toOption = none) :
    ∃ e, parseRefDigests ds = .error e := by
  induction ds with
  | nil => simp at h
  | cons desc rest ih =>
    obtain ⟨d0, hmem, hbad⟩ := h
    rcases List.mem_cons.mp hmem with heq | htail
    · subst heq
      cases hd : ParseSHA256Digest d0.digest with
      | error e =>
        refine ⟨"parse digest: " ++ e, ?_⟩
        unfold parseRefDigests
        rw [hd]
      | ok d => rw [hd] at hbad; simp [Except.toOption] at hbad
    · cases hd : ParseSHA256Digest desc.digest with
      | error e =>
        refine ⟨"parse digest: " ++ e, ?_⟩
        unfold parseRefDigests
        rw [hd]
      | ok d =>
        obtain ⟨e, he⟩ := ih ⟨d0, htail, hbad⟩
        refine ⟨e, ?_⟩
        unfold parseRefDigests
        rw [hd]
        dsimp only
        rw [he]

/-- `UnmarshalManifest` under the OCI index media type, in closed form. -/
theorem UnmarshalManifest_ociIndex (p : Payload) :
    UnmarshalManifest ociIndexType p =
      if p.shape = Shape.manifestIndex ∧ p.mediaType = ociIndexType then
        .ok (⟨.ociIndex, p.mediaType, p.schemaVersion, p.refs⟩,
             ⟨ociIndexType, p.contentLen, "sha256:" ++ p.contentHex⟩)
      else .error ("payload does not match media type " ++ ociIndexType) := by
  unfold UnmarshalManifest
  rw [(by decide : variantOfMediaType ociIndexType = some MVariant.ociIndex)]
  rfl

/-- Every variant parser that fails returns a nil manifest and the zero
digest. -/
theorem parserOf_allOrNothing (v : MVariant) (p : Payload)
    (h : (parserOf v p).err.isSome) :
    (parserOf v p).manifest = none ∧ (parserOf v p).digest = Digest.zero := by
  rcases parserOf_anatomy v p with ⟨e, he⟩ | ⟨m, d, hr⟩
  · rw [he]; exact ⟨rfl, rfl⟩
  · rw [hr.1] at h; simp at h

/-! Claim theorems. -/

/-- Claim C1 (corrected).  The spec's version gate holds for the three
parsers that check it — for every payload with `schemaVersion ≠ 2`,
`ParseManifestV2`, `ParseOCIManifest` and `ParseManifestV2List` all
reject — but `ParseOCIIndex` performs no schema-version check at all: its
error behavior is identical whatever the payload's `schemaVersion` is. -/
theorem claim_C1_version_gate :
    (∀ p : Payload, p.schemaVersion ≠ 2 →
       (ParseManifestV2 p).err ≠ none ∧ (ParseOCIManifest p).err ≠ none ∧
       (ParseManifestV2List p).err ≠ none) ∧
    (∀ (p : Payload) (n : Int),
       (ParseOCIIndex { p with schemaVersion := n }).err = (ParseOCIIndex p).err) := by
  constructor
  · intro p h
    refine ⟨?_, ?_, ?_⟩
    · rcases ParseManifestV2_anatomy p with ⟨e, he⟩ | ⟨m, d, hr⟩
      · rw [he]; simp
      · exact absurd hr.2.2.2.2.2.2.2.2 h
    · rcases ParseOCIManifest_anatomy p with ⟨e, he⟩ | ⟨m, d, hr⟩
      · rw [he]; simp
      · exact absurd hr.2.2.2.2.2.2.2.2 h
    · rcases ParseManifestV2List_anatomy p with ⟨e, he⟩ | ⟨m, d, hr⟩
      · rw [he]; simp
      · exact absurd hr.2.2.2.2.2.2.2.2 h
  · intro p n
    unfold ParseOCIIndex
    rw [UnmarshalManifest_ociIndex, UnmarshalManifest_ociIndex]
    dsimp only
    by_cases hc : p.shape = Shape.manifestIndex ∧ p.mediaType = ociIndexType
    · rw [if_pos hc, if_pos hc]
      dsimp only
      cases hd : ParseSHA256Digest ("sha256:" ++ p.contentHex) <;> rfl
    · rw [if_neg hc, if_neg hc]

/-- Claim C1, counterexample: a well-formed OCI index payload declaring
`schemaVersion: 3` — one of the four supported media types with a schema
version different from 2 — is accepted by `ParseOCIIndex`, not rejected. -/
theorem claim_C1_counterexample :
    ociIndexV3Payload.schemaVersion ≠ 2 ∧
    ociIndexV3Payload.mediaType = ociIndexType ∧
    (ParseOCIIndex ociIndexV3Payload).err = none ∧
    (ParseOCIIndex ociIndexV3Payload).manifest.isSome := by
  decide

/-- Claim C1, witness: the amended version gate applied to a concrete
Docker v2 manifest payload with `schemaVersion: 3`, and the version
independence of `ParseOCIIndex` applied to a concrete index payload. -/
theorem claim_C1_witness :
    ((ParseManifestV2 v2ManifestV3Payload).err ≠ none ∧
     (ParseOCIManifest v2ManifestV3Payload).err ≠ none ∧
     (ParseManifestV2List v2ManifestV3Payload).err ≠ none) ∧
    (ParseOCIIndex { ociIndexPayload with schemaVersion := 5 }).err =
      (ParseOCIIndex ociIndexPayload).err :=
  ⟨claim_C1_version_gate.1 v2ManifestV3Payload (by decide),
   claim_C1_version_gate.2 ociIndexPayload 5⟩

/-- Claim C2 (corrected).  When the first three attempts fail,
`ParseManifest` returns exactly the result of the fourth (OCI index)
attempt — error included.  There is no aggregate
`UnrecognizedManifestFormat` error in the code: the error surfaced to the
caller is precisely the error of the last attempt. -/
theorem claim_C2_returns_fourth_attempt (p : Payload)
    (h1 : (ParseManifestV2 p).err ≠ none)
    (h2 : (ParseOCIManifest p).err ≠ none)
    (h3 : (ParseManifestV2List p).err ≠ none)
    (h4 : (ParseOCIIndex p).err ≠ none) :
    ParseManifest p = ParseOCIIndex p ∧
    (ParseManifest p).err = (ParseOCIIndex p).err ∧ (ParseManifest p).err ≠ none := by
  have h := ParseManifest_fourth p h1 h2 h3
  exact ⟨h, by rw [h], by rw [h]; exact h4⟩

/-- Claim C2, counterexample: on bytes failing all four attempts,
`ParseManifest` returns the fourth attempt's error verbatim — the OCI index
unmarshal error — so the caller can see exactly which attempt failed last,
contradicting the claimed aggregate error. -/
theorem claim_C2_counterexample :
    (ParseManifest garbagePayload).err.isSome ∧
    ParseManifest garbagePayload = ParseOCIIndex garbagePayload ∧
    (ParseManifest garbagePayload).err =
      some ("unmarshal oci index: payload does not match media type " ++ ociIndexType) := by
  decide

/-- Claim C2, witness: the amended statement applied to concrete bytes that
fail all four attempts. -/
theorem claim_C2_witness :
    ParseManifest garbagePayload = ParseOCIIndex garbagePayload ∧
    (ParseManifest garbagePayload).err = (ParseOCIIndex garbagePayload).err ∧
    (ParseManifest garbagePayload).err ≠ none :=
  claim_C2_returns_fourth_attempt garbagePayload (by decide) (by decide) (by decide) (by decide)

/-- Claim C3 (confirmed).  `ParseManifest` equals the combinator that tries
`ParseManifestV2`, then `ParseOCIManifest`, then `ParseManifestV2List`,
returning the first attempt whose error is nil and otherwise falling
through to `ParseOCIIndex`: deserialization is attempted in exactly that
fixed order and the first success is returned. -/
theorem claim_C3_resolution_order (p : Payload) :
    ParseManifest p =
      tryAttemptsInOrder [ParseManifestV2, ParseOCIManifest, ParseManifestV2List]
        ParseOCIIndex p := by
  rfl

/-- Claim C4 (confirmed).  When exactly one variant's parser accepts the
payload, `ParseManifest` returns that parser's result, and the manifest it
returns is tagged with that variant; moreover a payload whose declared
media type differs from the media type of the variant being tried is always
rejected by that variant's parser, never silently coerced. -/
theorem claim_C4_resolver_priority :
    (∀ (p : Payload) (v : MVariant), (parserOf v p).err = none →
       (∀ w : MVariant, w ≠ v → (parserOf w p).err ≠ none) →
       ParseManifest p = parserOf v p ∧
       ∀ m, (ParseManifest p).manifest = some m → m.variant = v) ∧
    (∀ (p : Payload) (v : MVariant), p.mediaType ≠ mediaTypeOf v →
       (parserOf v p).err ≠ none) := by
  constructor
  · intro p v hok huniq
    have heq : ParseManifest p = parserOf v p := by
      cases v with
      | v2Manifest => exact ParseManifest_first p hok
      | ociManifest =>
        exact ParseManifest_second p (huniq .v2Manifest (by decide)) hok
      | v2ManifestList =>
        exact ParseManifest_third p (huniq .v2Manifest (by decide))
          (huniq .ociManifest (by decide)) hok
      | ociIndex =>
        exact ParseManifest_fourth p (huniq .v2Manifest (by decide))
          (huniq .ociManifest (by decide)) (huniq .v2ManifestList (by decide))
    refine ⟨heq, ?_⟩
    intro m hm
    rw [heq] at hm
    rcases parserOf_anatomy v p with ⟨e, he⟩ | ⟨m', d, hr⟩
    · rw [he] at hok; simp at hok
    · rw [hr.1] at hm
      have hmm : m' = m := Option.some.inj hm
      exact hmm ▸ hr.2.2.1
  · intro p v h
    rcases parserOf_anatomy v p with ⟨e, he⟩ | ⟨m, d, hr⟩
    · rw [he]; simp
    · exact absurd hr.2.2.2.2.2.2.1 h

/-- Claim C4, witness: the OCI index fixture is accepted by the OCI index
parser alone, and `ParseManifest` resolves it to the `ociIndex` variant, not
`v2ManifestList`; and the v2-manifest fixture, whose declared media type is
not the manifest-list type, is rejected by the manifest-list parser. -/
theorem claim_C4_witness :
    (ParseManifest ociIndexPayload = parserOf MVariant.ociIndex ociIndexPayload ∧
     ∀ m, (ParseManifest ociIndexPayload).manifest = some m → m.variant = MVariant.ociIndex) ∧
    (parserOf MVariant.v2ManifestList v2ManifestPayload).err ≠ none :=
  ⟨claim_C4_resolver_priority.1 ociIndexPayload MVariant.ociIndex (by decide) (by decide),
   claim_C4_resolver_priority.2 v2ManifestPayload MVariant.v2ManifestList (by decide)⟩

/-- Claim C5 (confirmed).  All five parse operations are all-or-nothing:
whenever the error component is non-nil, the manifest component is nil and
the digest component is the zero `core.Digest` value. -/
theorem claim_C5_all_or_nothing (p : Payload) :
    ((ParseManifestV2 p).err.isSome →
       (ParseManifestV2 p).manifest = none ∧ (ParseManifestV2 p).digest = Digest.zero) ∧
    ((ParseOCIManifest p).err.isSome →
       (ParseOCIManifest p).manifest = none ∧ (ParseOCIManifest p).digest = Digest.zero) ∧
    ((ParseManifestV2List p).err.isSome →
       (ParseManifestV2List p).manifest = none ∧ (ParseManifestV2List p).digest = Digest.zero) ∧
    ((ParseOCIIndex p).err.isSome →
       (ParseOCIIndex p).manifest = none ∧ (ParseOCIIndex p).digest = Digest.zero) ∧
    ((ParseManifest p).err.isSome →
       (ParseManifest p).manifest = none ∧ (ParseManifest p).digest = Digest.zero) := by
  refine ⟨fun h => parserOf_allOrNothing .v2Manifest p h,
          fun h => parserOf_allOrNothing .ociManifest p h,
          fun h => parserOf_allOrNothing .v2ManifestList p h,
          fun h => parserOf_allOrNothing .ociIndex p h, ?_⟩
  intro h
  rcases ParseManifest_cases p with he | he | he | he <;> rw [he] at h ⊢
  · exact parserOf_allOrNothing .v2Manifest p h
  · exact parserOf_allOrNothing .ociManifest p h
  · exact parserOf_allOrNothing .v2ManifestList p h
  · exact parserOf_allOrNothing .ociIndex p h

/-- Claim C5, witness: on bytes rejected by everything, each of the five
operations returns a nil manifest and the zero digest. -/
theorem claim_C5_witness :
    ((ParseManifestV2 garbagePayload).manifest = none ∧
       (ParseManifestV2 garbagePayload).digest = Digest.zero) ∧
    ((ParseOCIManifest garbagePayload).manifest = none ∧
       (ParseOCIManifest garbagePayload).digest = Digest.zero) ∧
    ((ParseManifestV2List garbagePayload).manifest = none ∧
       (ParseManifestV2List garbagePayload).digest = Digest.zero) ∧
    ((ParseOCIIndex garbagePayload).manifest = none ∧
       (ParseOCIIndex garbagePayload).digest = Digest.zero) ∧
    ((ParseManifest garbagePayload).manifest = none ∧
       (ParseManifest garbagePayload).digest = Digest.zero) :=
  ⟨(claim_C5_all_or_nothing garbagePayload).1 (by decide),
   (claim_C5_all_or_nothing garbagePayload).2.1 (by decide),
   (claim_C5_all_or_nothing garbagePayload).2.2.1 (by decide),
   (claim_C5_all_or_nothing garbagePayload).2.2.2.1 (by decide),
   (claim_C5_all_or_nothing garbagePayload).2.2.2.2 (by decide)⟩

/-- Claim C6 (confirmed).  A successful `GetManifestReferences` run returns
exactly the parse of every reference descriptor's digest, in descriptor
order; any descriptor with a malformed digest makes it fail; and the result
depends only on the reference list, not on which variant the manifest
is. -/
theorem claim_C6_references :
    (∀ (m : Manifest) (l : List Digest), GetManifestReferences m = .ok l →
       List.Forall₂ (fun desc dg => ParseSHA256Digest desc.digest = .ok dg) m.refs l) ∧
    (∀ m : Manifest, (∃ desc ∈ m.refs, (ParseSHA256Digest desc.digest).toOption = none) →
       ∃ e, GetManifestReferences m = .error e) ∧
    (∀ m mm : Manifest, m.refs = mm.refs →
       GetManifestReferences m = GetManifestReferences mm) := by
  refine ⟨?_, ?_, ?_⟩
  · intro m l h
    exact parseRefDigests_ok m.refs l h
  · intro m h
    exact parseRefDigests_error m.refs h
  · intro m mm h
    unfold GetManifestReferences
    rw [h]

/-- Claim C6, witness: concrete manifests exercising the success, failure
and variant-independence clauses. -/
theorem claim_C6_witness :
    List.Forall₂ (fun desc dg => ParseSHA256Digest desc.digest = .ok dg)
      refsOkManifest.refs [⟨"sha256", sampleHex⟩, ⟨"sha256", sampleHex2⟩] ∧
    (∃ e, GetManifestReferences refsBadManifest = .error e) ∧
    GetManifestReferences refsOkManifest = GetManifestReferences refsOkManifestOci :=
  ⟨claim_C6_references.1 refsOkManifest [⟨"sha256", sampleHex⟩, ⟨"sha256", sampleHex2⟩]
     (by rfl),
   claim_C6_references.2.1 refsBadManifest (by decide),
   claim_C6_references.2.2 refsOkManifest refsOkManifestOci (by decide)⟩

/-- Claim C7 (corrected).  The closers helper swallows every close failure:
whatever the closer does, nothing is ever propagated to the caller (the Go
function returns no value), an already-closed failure is logged at Debug
level, and any other failure — including one indicating data was not
durably flushed — is logged at Error level and still swallowed.  The spec's
exception clause ("a flush failure must propagate as a write failure") has
no counterpart in this code. -/
theorem claim_C7_close_swallows (c : Option CloseOutcome) :
    (closers.Close c).propagated = none ∧
    (∀ m, c = some (.failed m) →
       ((m = "file already closed" ∨ m = "close: file already closed") →
          (closers.Close c).logs =
            [⟨.debug, "attempted to close already closed file (this is usually harmless)"⟩]) ∧
       (¬(m = "file already closed" ∨ m = "close: file already closed") →
          (closers.Close c).logs = [⟨.error, "failed to close a closer"⟩])) := by
  constructor
  · cases c with
    | none => rfl
    | some o =>
      cases o with
      | ok => rfl
      | failed m =>
        unfold closers.Close
        dsimp only
        by_cases h : m = "file already closed" ∨ m = "close: file already closed"
        · rw [if_pos h]
        · rw [if_neg h]
  · intro m hc
    subst hc
    constructor
    · intro h
      unfold closers.Close
      dsimp only
      rw [if_pos h]
    · intro h
      unfold closers.Close
      dsimp only
      rw [if_neg h]

/-- Claim C7, counterexample: a close failure whose message indicates data
was not durably flushed is logged and swallowed, not propagated — the
helper's caller receives nothing. -/
theorem claim_C7_counterexample :
    (closers.Close (some (.failed "sync failed: data not flushed to disk"))).propagated = none ∧
    (closers.Close (some (.failed "sync failed: data not flushed to disk"))).logs =
      [⟨.error, "failed to close a closer"⟩] := by
  decide

/-- Claim C7, witness: the amended statement applied to a generic close
failure and to an already-closed failure. -/
theorem claim_C7_witness :
    (closers.Close (some (.failed "disk quota exceeded"))).propagated = none ∧
    (closers.Close (some (.failed "disk quota exceeded"))).logs =
      [⟨.error, "failed to close a closer"⟩] ∧
    (closers.Close (some (.failed "file already closed"))).logs =
      [⟨.debug, "attempted to close already closed file (this is usually harmless)"⟩] :=
  ⟨(claim_C7_close_swallows (some (.failed "disk quota exceeded"))).1,
   ((claim_C7_close_swallows (some (.failed "disk quota exceeded"))).2
      "disk quota exceeded" rfl).2 (by decide),
   ((claim_C7_close_swallows (some (.failed "file already closed"))).2
      "file already closed" rfl).1 (by decide)⟩

/-- Claim C8 (confirmed).  Every successful parse — by any of the four
variant parsers or by `ParseManifest` — returns a digest whose algorithm
field is "sha256"; in particular the v2 manifest list fixture resolves to
the `v2ManifestList` variant with a sha256 digest. -/
theorem claim_C8_sha256_digest :
    (∀ (p : Payload) (v : MVariant), (parserOf v p).err = none →
       (parserOf v p).digest.algo = "sha256") ∧
    (∀ p : Payload, (ParseManifest p).err = none →
       (ParseManifest p).digest.algo = "sha256") ∧
    ((ParseManifest v2ListPayload).err = none ∧
     (ParseManifest v2ListPayload).manifest =
       some ⟨MVariant.v2ManifestList, v2ManifestListType, 2, v2ListPayload.refs⟩ ∧
     (ParseManifest v2ListPayload).digest.algo = "sha256") := by
  have hv : ∀ (p : Payload) (v : MVariant), (parserOf v p).err = none →
      (parserOf v p).digest.algo = "sha256" := by
    intro p v h
    rcases parserOf_anatomy v p with ⟨e, he⟩ | ⟨m, d, hr⟩
    · rw [he] at h; simp at h
    · rw [hr.1]; exact hr.2.1
  refine ⟨hv, ?_, by decide, by decide, by decide⟩
  intro p h
  rcases ParseManifest_cases p with he | he | he | he <;> rw [he] at h ⊢
  · exact hv p .v2Manifest h
  · exact hv p .ociManifest h
  · exact hv p .v2ManifestList h
  · exact hv p .ociIndex h

/-- Claim C8, witness: the sha256 guarantee applied to concrete fixtures. -/
theorem claim_C8_witness :
    (ParseManifest v2ListPayload).digest.algo = "sha256" ∧
    (parserOf MVariant.ociIndex ociIndexPayload).digest.algo = "sha256" :=
  ⟨claim_C8_sha256_digest.2.1 v2ListPayload (by decide),
   claim_C8_sha256_digest.1 ociIndexPayload MVariant.ociIndex (by decide)⟩

/-- Claim C9 (confirmed).  `GetSupportedManifestTypes` is a constant
function of the four enumerated media type constants: it returns exactly
the four supported media type strings, comma separated, in declaration
order, with no other types. -/
theorem claim_C9_supported_types :
    GetSupportedManifestTypes =
      "application/vnd.docker.distribution.manifest.v2+json,application/vnd.docker.distribution.manifest.list.v2+json,application/vnd.oci.image.manifest.v1+json,application/vnd.oci.image.index.v1+json" := by
  rfl

/-- Claim C10 (confirmed).  Closing a nil closer is a total no-op: no close
call is made, no log entry is emitted, nothing is propagated, and — being a
total Lean function — the helper cannot panic. -/
theorem claim_C10_nil_noop :
    closers.Close none = ⟨[], none⟩ ∧
    (closers.Close none).logs = [] ∧ (closers.Close none).propagated = none :=
  ⟨rfl, rfl, rfl⟩

end Kraken
